import Mathlib

/-!
Shallow embedding of `src/protocol/req.rs` from the `buruma` ZooKeeper client:
the request-encoding layer that serializes typed request values into the
big-endian, length-prefixed wire format.

Bytes are modelled as `Nat` values (< 256 by construction of the encoders);
buffers (`bytes::BytesMut`) as `List Nat`; Rust `String`/`Vec<u8>` payload
fields as their UTF-8 byte lists; machine integers as `Nat`/`Int` with
explicit reduction modulo `2^w` at the encoding boundary.

The `Serializer` trait's primitive writers, the `ZKResult` alias and the
`constants` module are declared outside `src/` (only their call sites are in
the provided source); those definitions are modelled from the spec and marked
as such in their doc comments.  Everything else is translated directly from
`src/protocol/req.rs`.
-/

namespace Buruma

/-- Big-endian 4-byte encoding of an unsigned 32-bit value (the value is
reduced modulo `2^32`, as a Rust `u32` is). -/
def u32BE (n : Nat) : List Nat :=
  let m := n % 4294967296
  [m / 16777216 % 256, m / 65536 % 256, m / 256 % 256, m % 256]

/-- Big-endian 8-byte encoding of an unsigned 64-bit value. -/
def u64BE (n : Nat) : List Nat :=
  let m := n % 18446744073709551616
  [m / 72057594037927936 % 256, m / 281474976710656 % 256,
   m / 1099511627776 % 256, m / 4294967296 % 256,
   m / 16777216 % 256, m / 65536 % 256, m / 256 % 256, m % 256]

/-- Big-endian 4-byte two's-complement encoding of a signed 32-bit value. -/
def i32BE (x : Int) : List Nat := u32BE (x % 4294967296).toNat

/-- Big-endian 8-byte two's-complement encoding of a signed 64-bit value. -/
def i64BE (x : Int) : List Nat := u64BE (x % 18446744073709551616).toNat

/-- Modelled from the spec: `crate::ZKResult` (declared in the crate root,
not in the provided source).  §7: "there is no recoverable error path inside
this layer"; the error type's shape is irrelevant here. -/
inductive ZKError where
  | unspecified
  deriving DecidableEq

/-- Modelled from the spec: `crate::ZKResult<T>`, a `Result`-style alias. -/
abbrev ZKResult (α : Type) := Except ZKError α

/-- Modelled from the spec: `Serializer::write_i32` — appends a big-endian
`i32` to the caller's buffer (§4.1, §6). -/
def write_i32 (x : Int) (b : List Nat) : List Nat := b ++ i32BE x

/-- Modelled from the spec: `Serializer::write_i64` (§4.1, §6). -/
def write_i64 (x : Int) (b : List Nat) : List Nat := b ++ i64BE x

/-- Modelled from the spec: `Serializer::write_u32` (§4.1, §6). -/
def write_u32 (n : Nat) (b : List Nat) : List Nat := b ++ u32BE n

/-- Modelled from the spec: `Serializer::write_bool` — one byte, 0 = false,
nonzero (1) = true (§4.1, §6). -/
def write_bool (v : Bool) (b : List Nat) : List Nat :=
  b ++ [if v then 1 else 0]

/-- Byte-level denotation of a length-prefixed string: `i32` byte length
followed by the raw UTF-8 bytes (§6 `string`). -/
def strBE (s : List Nat) : List Nat := i32BE ((s.length : Int)) ++ s

/-- Modelled from the spec: `Serializer::write_string` — appends the
length-prefixed string encoding (§4.1, §6). -/
def write_string (s : List Nat) (b : List Nat) : List Nat := b ++ strBE s

/-- Byte-level denotation of an optional byte sequence: length + bytes when
present, the 4-byte `-1` sentinel and nothing else when absent (§6
`optional bytes`). -/
def sliceOptBE : Option (List Nat) → List Nat
  | some d => i32BE ((d.length : Int)) ++ d
  | none => i32BE (-1)

/-- Modelled from the spec: `Serializer::write_slice_option` (§4.1, §6). -/
def write_slice_option (o : Option (List Nat)) (b : List Nat) : List Nat :=
  b ++ sliceOptBE o

/-- Byte-level denotation of a required byte sequence: `i32` length followed
by the raw bytes (§6 `required bytes`). -/
def sliceBE (d : List Nat) : List Nat := i32BE ((d.length : Int)) ++ d

/-- Modelled from the spec: `Serializer::write_slice` (§4.1, §6). -/
def write_slice (d : List Nat) (b : List Nat) : List Nat := b ++ sliceBE d

/-- Modelled from the spec: `crate::constants::WORLD = "world"` (UTF-8). -/
def WORLD : List Nat := [119, 111, 114, 108, 100]

/-- Modelled from the spec: `crate::constants::ANYONE = "anyone"` (UTF-8). -/
def ANYONE : List Nat := [97, 110, 121, 111, 110, 101]

/-- Modelled from the spec: `crate::constants::IP = "ip"` (UTF-8). -/
def IP : List Nat := [105, 112]

/-- Modelled from the spec: `crate::constants::DIGEST = "digest"` (UTF-8). -/
def DIGEST : List Nat := [100, 105, 103, 101, 115, 116]

/-- Modelled from the spec: `crate::constants::Perms::All` — the "all
permissions" bitmask (the canonical ZooKeeper value `0x1f`); only used as the
default `ACL` permission, no claim depends on the numeric value. -/
def PermsAll : Nat := 31

/-- Modelled from the spec: `crate::constants::CreateMode` — "encoded flag
selecting persistence/ephemeral/sequential semantics"; the numeric codes are
the standard ZooKeeper create-mode codes used by the `as i32` casts. -/
inductive CreateMode where
  | Persistent
  | Ephemeral
  | PersistentSequential
  | EphemeralSequential
  deriving DecidableEq

/-- The `as i32` cast of a `CreateMode` value. -/
def CreateMode.toFlags : CreateMode → Int
  | .Persistent => 0
  | .Ephemeral => 1
  | .PersistentSequential => 2
  | .EphemeralSequential => 3

/-- Model of `std::net::IpAddr`: this layer only ever calls
`addr.to_string()`, so an address is represented by the UTF-8 bytes of its
(injective) textual form. -/
structure IpAddr where
  display : List Nat
  deriving DecidableEq

/-- `Scheme` from `src/protocol/req.rs`: the three built-in ZooKeeper
authentication schemes. -/
inductive Scheme where
  | World
  | IP (addr : IpAddr)
  | Digest (digest_info : List Nat)
  deriving DecidableEq

/-- `ACL` from `src/protocol/req.rs`. -/
structure ACL where
  perms : Nat
  scheme : Scheme
  id : List Nat
  deriving DecidableEq

/-- `impl Serializer for ACL` from `src/protocol/req.rs`: permission bitmask,
then the scheme-name / identity string pair selected by the variant. -/
def ACL.write (a : ACL) (b : List Nat) : ZKResult (List Nat) :=
  let b := write_u32 a.perms b
  let b :=
    match a.scheme with
    | .World => write_string ANYONE (write_string WORLD b)
    | .IP addr => write_string addr.display (write_string IP b)
    | .Digest digest_info => write_string digest_info (write_string DIGEST b)
  Except.ok b

/-- `impl Default for ACL` from `src/protocol/req.rs`. -/
def ACL.default : ACL :=
  { perms := PermsAll, scheme := Scheme.World, id := ANYONE }

/-- `ACL::world_acl` from `src/protocol/req.rs`. -/
def ACL.world_acl : List ACL := [ACL.default]

/-- Modelled from the spec: `Serializer::write_vec` — a homogeneous sequence
is written as an `i32` count followed by each element's own serialization in
order (§4.1, §6); element writes run in the `ZKResult` context their trait
method returns. -/
def write_vec (l : List ACL) (b : List Nat) : ZKResult (List Nat) :=
  l.foldlM (fun acc a => ACL.write a acc) (write_i32 ((l.length : Int)) b)

/-- `RequestHeader` from `src/protocol/req.rs`. -/
structure RequestHeader where
  xid : Int
  rtype : Int
  deriving DecidableEq

/-- `RequestHeader::new` from `src/protocol/req.rs`. -/
def RequestHeader.new (xid rtype : Int) : RequestHeader :=
  { xid := xid, rtype := rtype }

/-- `impl Serializer for RequestHeader` from `src/protocol/req.rs`. -/
def RequestHeader.write (h : RequestHeader) (b : List Nat) :
    ZKResult (List Nat) :=
  Except.ok (write_i32 h.rtype (write_i32 h.xid b))

/-- `ConnectRequest` from `src/protocol/req.rs`. -/
structure ConnectRequest where
  protocol_version : Int
  last_zxid_seen : Int
  time_out : Nat
  session_id : Int
  passwd : Option (List Nat)
  read_only : Bool
  deriving DecidableEq

/-- `ConnectRequest::new` from `src/protocol/req.rs`. -/
def ConnectRequest.new (session_timeout : Nat) : ConnectRequest :=
  { protocol_version := 0
    last_zxid_seen := 0
    time_out := session_timeout
    session_id := 0
    passwd := none
    read_only := false }

/-- `impl Serializer for ConnectRequest` from `src/protocol/req.rs`. -/
def ConnectRequest.write (c : ConnectRequest) (b : List Nat) :
    ZKResult (List Nat) :=
  Except.ok (write_bool c.read_only
    (write_slice_option c.passwd
      (write_i64 c.session_id
        (write_u32 c.time_out
          (write_i64 c.last_zxid_seen
            (write_i32 c.protocol_version b))))))

/-- `CreateRequest` from `src/protocol/req.rs`. -/
structure CreateRequest where
  path : List Nat
  data : Option (List Nat)
  acl : List ACL
  flags : Int
  deriving DecidableEq

/-- `impl Serializer for CreateRequest` from `src/protocol/req.rs`: path,
optional data, ACL sequence, then the create flags. -/
def CreateRequest.write (r : CreateRequest) (b : List Nat) :
    ZKResult (List Nat) := do
  let b := write_string r.path b
  let b := write_slice_option r.data b
  let b ← write_vec r.acl b
  Except.ok (write_i32 r.flags b)

/-- `CreateRequest::new` from `src/protocol/req.rs`. -/
def CreateRequest.new (path : List Nat) : CreateRequest :=
  { path := path
    data := none
    acl := ACL.world_acl
    flags := CreateMode.Persistent.toFlags }

/-- `CreateRequest::new_full` from `src/protocol/req.rs`. -/
def CreateRequest.new_full (path : List Nat) (data : Option (List Nat))
    (acl : List ACL) (create_mode : CreateMode) : CreateRequest :=
  { path := path
    data := data
    acl := acl
    flags := create_mode.toFlags }

/-- `DEATH_PTYPE` from `src/protocol/req.rs` (an `i8`). -/
def DEATH_PTYPE : Int := -1

/-- `ReqPacket` from `src/protocol/req.rs`. -/
structure ReqPacket where
  ptype : Int
  rh : Option RequestHeader
  req : Option (List Nat)
  deriving DecidableEq

/-- `ReqPacket::new` from `src/protocol/req.rs`. -/
def ReqPacket.new (rh : Option RequestHeader) (req : Option (List Nat)) :
    ReqPacket :=
  { ptype := 0, rh := rh, req := req }

/-- `ReqPacket::death_request` from `src/protocol/req.rs`. -/
def ReqPacket.death_request : ReqPacket :=
  { ptype := DEATH_PTYPE, rh := none, req := none }

/-- `DeleteRequest` from `src/protocol/req.rs`. -/
structure DeleteRequest where
  path : List Nat
  version : Int
  deriving DecidableEq

/-- `DeleteRequest::new` from `src/protocol/req.rs`. -/
def DeleteRequest.new (path : List Nat) (version : Int) : DeleteRequest :=
  { path := path, version := version }

/-- `impl Serializer for DeleteRequest` from `src/protocol/req.rs`. -/
def DeleteRequest.write (r : DeleteRequest) (b : List Nat) :
    ZKResult (List Nat) :=
  Except.ok (write_i32 r.version (write_string r.path b))

/-- `SetDataRequest` from `src/protocol/req.rs`. -/
structure SetDataRequest where
  path : List Nat
  data : List Nat
  version : Int
  deriving DecidableEq

/-- `SetDataRequest::new` from `src/protocol/req.rs`. -/
def SetDataRequest.new (path : List Nat) (data : List Nat) (version : Int) :
    SetDataRequest :=
  { path := path, data := data, version := version }

/-- `impl Serializer for SetDataRequest` from `src/protocol/req.rs`: path,
required (never-null) data, version. -/
def SetDataRequest.write (r : SetDataRequest) (b : List Nat) :
    ZKResult (List Nat) :=
  Except.ok (write_i32 r.version (write_slice r.data (write_string r.path b)))

/-- `PathAndWatchRequest` from `src/protocol/req.rs`. -/
structure PathAndWatchRequest where
  path : List Nat
  watch : Bool
  deriving DecidableEq

/-- `PathAndWatchRequest::new` from `src/protocol/req.rs`. -/
def PathAndWatchRequest.new (path : List Nat) (watch : Bool) :
    PathAndWatchRequest :=
  { path := path, watch := watch }

/-- `impl Serializer for PathAndWatchRequest` from `src/protocol/req.rs`. -/
def PathAndWatchRequest.write (r : PathAndWatchRequest) (b : List Nat) :
    ZKResult (List Nat) :=
  Except.ok (write_bool r.watch (write_string r.path b))

/-- `PathRequest` from `src/protocol/req.rs`. -/
structure PathRequest where
  path : List Nat
  deriving DecidableEq

/-- `PathRequest::new` from `src/protocol/req.rs`. -/
def PathRequest.new (path : List Nat) : PathRequest :=
  { path := path }

/-- `impl Serializer for PathRequest` from `src/protocol/req.rs`. -/
def PathRequest.write (r : PathRequest) (b : List Nat) : ZKResult (List Nat) :=
  Except.ok (write_string r.path b)

/-! ## Byte-level denotations of the compound encoders -/

/-- Reduction of `Except.ok x >>= f` in the `ZKResult` monad. -/
@[simp] theorem ZKResult.ok_bind {α β : Type} (x : α) (f : α → ZKResult β) :
    (Except.ok x : ZKResult α) >>= f = f x := rfl

/-- The scheme-name token `ACL::write` puts on the wire for a scheme. -/
def Scheme.wireName : Scheme → List Nat
  | .World => WORLD
  | .IP _ => Buruma.IP
  | .Digest _ => DIGEST

/-- The identity string `ACL::write` puts on the wire for a scheme. -/
def Scheme.wireId : Scheme → List Nat
  | .World => ANYONE
  | .IP addr => addr.display
  | .Digest digest_info => digest_info

/-- The byte sequence one `ACL` contributes to the output. -/
def aclBE (a : ACL) : List Nat :=
  u32BE a.perms ++ strBE a.scheme.wireName ++ strBE a.scheme.wireId

/-- The byte sequence an ACL sequence contributes: `i32` count, then each
element's encoding in order. -/
def vecBE (l : List ACL) : List Nat :=
  i32BE ((l.length : Int)) ++ l.foldr (fun a acc => aclBE a ++ acc) []

theorem aclWrite_eq (a : ACL) (b : List Nat) :
    ACL.write a b = Except.ok (b ++ aclBE a) := by
  cases a with
  | mk perms scheme id =>
    cases scheme <;>
      simp [ACL.write, aclBE, Scheme.wireName, Scheme.wireId, write_u32,
        write_string, List.append_assoc]

theorem foldlM_acl_write (l : List ACL) (b : List Nat) :
    l.foldlM (fun acc a => ACL.write a acc) b =
      Except.ok (b ++ l.foldr (fun a acc => aclBE a ++ acc) []) := by
  induction l generalizing b with
  | nil => simp [List.foldlM_nil]; rfl
  | cons a l ih =>
    rw [List.foldlM_cons, aclWrite_eq, ZKResult.ok_bind, ih]
    simp [List.append_assoc]

theorem write_vec_eq (l : List ACL) (b : List Nat) :
    write_vec l b = Except.ok (b ++ vecBE l) := by
  simp [write_vec, foldlM_acl_write, vecBE, write_i32, List.append_assoc]

theorem createRequestWrite_eq (r : CreateRequest) (b : List Nat) :
    CreateRequest.write r b =
      Except.ok (b ++ strBE r.path ++ sliceOptBE r.data ++ vecBE r.acl ++
        i32BE r.flags) := by
  simp [CreateRequest.write, write_vec_eq, write_string, write_slice_option,
    write_i32, ZKResult.ok_bind, List.append_assoc]

/-! ## A decoder built against the same wire format (spec §6, §8: the
round-trip property is stated against "a deserializer built against this
same wire format") -/

/-- Big-endian reassembly of 4 bytes into a signed 32-bit value. -/
def i32FromBE (b0 b1 b2 b3 : Nat) : Int :=
  if b0 * 16777216 + b1 * 65536 + b2 * 256 + b3 < 2147483648 then
    ((b0 * 16777216 + b1 * 65536 + b2 * 256 + b3 : Nat) : Int)
  else ((b0 * 16777216 + b1 * 65536 + b2 * 256 + b3 : Nat) : Int) - 4294967296

/-- Read a big-endian `i32` off the front of a byte stream. -/
def readI32 : List Nat → Option (Int × List Nat)
  | b0 :: b1 :: b2 :: b3 :: rest => some (i32FromBE b0 b1 b2 b3, rest)
  | _ => none

/-- Read a big-endian `u32` off the front of a byte stream. -/
def readU32 : List Nat → Option (Nat × List Nat)
  | b0 :: b1 :: b2 :: b3 :: rest =>
      some (b0 * 16777216 + b1 * 65536 + b2 * 256 + b3, rest)
  | _ => none

/-- Read a length-prefixed string. -/
def readString (b : List Nat) : Option (List Nat × List Nat) := do
  let (len, rest) ← readI32 b
  if 0 ≤ len ∧ len.toNat ≤ rest.length then
    some (rest.take len.toNat, rest.drop len.toNat)
  else none

/-- Read an optional byte sequence (`-1` length means absent). -/
def readSliceOption (b : List Nat) :
    Option (Option (List Nat) × List Nat) := do
  let (len, rest) ← readI32 b
  if len = -1 then some (none, rest)
  else if 0 ≤ len ∧ len.toNat ≤ rest.length then
    some (some (rest.take len.toNat), rest.drop len.toNat)
  else none

/-- Rebuild a `Scheme` from the wire's scheme-name / identity pair. -/
def readScheme (name ident : List Nat) : Option Scheme :=
  if name = WORLD then some Scheme.World
  else if name = Buruma.IP then some (Scheme.IP ⟨ident⟩)
  else if name = DIGEST then some (Scheme.Digest ident)
  else none

/-- Read one ACL: `u32` perms, scheme-name string, identity string. -/
def readACL (b : List Nat) : Option (ACL × List Nat) := do
  let (perms, b) ← readU32 b
  let (name, b) ← readString b
  let (ident, b) ← readString b
  let scheme ← readScheme name ident
  some ({ perms := perms, scheme := scheme, id := ident }, b)

/-- Read `n` consecutive ACL encodings. -/
def readACLs : Nat → List Nat → Option (List ACL × List Nat)
  | 0, b => some ([], b)
  | n + 1, b => do
      let (a, b) ← readACL b
      let (l, b) ← readACLs n b
      some (a :: l, b)

/-- Decode a full `CreateRequest` frame: string path, optional bytes data,
`i32`-counted ACL sequence, `i32` flags, with nothing left over. -/
def readCreateRequest (b : List Nat) :
    Option (List Nat × Option (List Nat) × List ACL × Int) := do
  let (path, b) ← readString b
  let (data, b) ← readSliceOption b
  let (count, b) ← readI32 b
  if 0 ≤ count then
    let (acl, b) ← readACLs count.toNat b
    let (flags, b) ← readI32 b
    if b = [] then some (path, data, acl, flags) else none
  else none

/-- Decoder-side interpretation of the create-flags code. -/
def CreateMode.ofFlags (x : Int) : Option CreateMode :=
  if x = 0 then some CreateMode.Persistent
  else if x = 1 then some CreateMode.Ephemeral
  else if x = 2 then some CreateMode.PersistentSequential
  else if x = 3 then some CreateMode.EphemeralSequential
  else none

/-- The decoded image of an `ACL`: perms and scheme survive the wire
unchanged, while the (never-serialized) `id` field comes back as the
canonical identity string the encoder put on the wire. -/
def ACL.canon (a : ACL) : ACL :=
  { perms := a.perms, scheme := a.scheme, id := a.scheme.wireId }

/-- Well-formedness of one ACL for the wire: the perms fit in a `u32` (as a
Rust `u32` always does) and the identity string's byte length fits in the
signed 32-bit length prefix. -/
def ACL.wireOk (a : ACL) : Prop :=
  a.perms < 4294967296 ∧ a.scheme.wireId.length < 2147483648

instance (a : ACL) : Decidable a.wireOk := by
  unfold ACL.wireOk; infer_instance

/-! ## Decoder round-trip lemmas -/

theorem readI32_i32BE (x : Int) (h1 : -2147483648 ≤ x)
    (h2 : x < 2147483648) (r : List Nat) :
    readI32 (i32BE x ++ r) = some (x, r) := by
  have hm0 : 0 ≤ x % 4294967296 := Int.emod_nonneg x (by norm_num)
  have hm1 : x % 4294967296 < 4294967296 :=
    Int.emod_lt_of_pos x (by norm_num)
  have hmx : ((x % 4294967296).toNat : Int) = x % 4294967296 :=
    Int.toNat_of_nonneg hm0
  simp only [i32BE, u32BE, List.cons_append, List.nil_append, readI32,
    Option.some.injEq, Prod.mk.injEq, and_true]
  unfold i32FromBE
  split <;> omega

theorem readU32_u32BE (p : Nat) (hp : p < 4294967296) (r : List Nat) :
    readU32 (u32BE p ++ r) = some (p, r) := by
  simp only [u32BE, List.cons_append, List.nil_append, readU32,
    Option.some.injEq, Prod.mk.injEq, and_true]
  omega

theorem readString_strBE (s : List Nat) (hs : s.length < 2147483648)
    (r : List Nat) : readString (strBE s ++ r) = some (s, r) := by
  have h1 : readI32 (i32BE ((s.length : Int)) ++ (s ++ r)) =
      some ((s.length : Int), s ++ r) :=
    readI32_i32BE _ (by omega) (by omega) _
  simp only [strBE, List.append_assoc] at h1 ⊢
  simp only [readString, h1, Option.bind_eq_bind, Option.some_bind]
  rw [if_pos]
  · rw [Int.toNat_natCast, List.take_left, List.drop_left]
  · refine ⟨by omega, ?_⟩
    rw [Int.toNat_natCast, List.length_append]
    omega

theorem readSliceOption_none (r : List Nat) :
    readSliceOption (sliceOptBE none ++ r) = some (none, r) := by
  have h1 : readI32 (i32BE (-1) ++ r) = some (-1, r) :=
    readI32_i32BE (-1) (by omega) (by omega) r
  simp only [sliceOptBE]
  simp [readSliceOption, h1]

theorem readSliceOption_some (d : List Nat) (hd : d.length < 2147483648)
    (r : List Nat) :
    readSliceOption (sliceOptBE (some d) ++ r) = some (some d, r) := by
  have h1 : readI32 (i32BE ((d.length : Int)) ++ (d ++ r)) =
      some ((d.length : Int), d ++ r) :=
    readI32_i32BE _ (by omega) (by omega) _
  simp only [sliceOptBE, List.append_assoc]
  simp only [readSliceOption, h1, Option.bind_eq_bind, Option.some_bind]
  rw [if_neg (by omega), if_pos]
  · rw [Int.toNat_natCast, List.take_left, List.drop_left]
  · refine ⟨by omega, ?_⟩
    rw [Int.toNat_natCast, List.length_append]
    omega

theorem readScheme_wire (s : Scheme) :
    readScheme s.wireName s.wireId = some s := by
  cases s with
  | World => decide
  | IP addr =>
    cases addr with
    | mk dsp =>
      show readScheme Buruma.IP dsp = some (Scheme.IP ⟨dsp⟩)
      unfold readScheme
      rw [if_neg (by decide), if_pos rfl]
  | Digest dg =>
    show readScheme DIGEST dg = some (Scheme.Digest dg)
    unfold readScheme
    rw [if_neg (by decide), if_neg (by decide), if_pos rfl]

theorem readACL_aclBE (a : ACL) (h : a.wireOk) (r : List Nat) :
    readACL (aclBE a ++ r) = some (a.canon, r) := by
  obtain ⟨hp, hid⟩ := h
  have hname : a.scheme.wireName.length < 2147483648 := by
    cases a.scheme <;> norm_num [Scheme.wireName, WORLD, Buruma.IP, DIGEST]
  simp only [aclBE, List.append_assoc]
  simp only [readACL, Option.bind_eq_bind]
  rw [readU32_u32BE _ hp]
  simp only [Option.some_bind]
  rw [readString_strBE _ hname]
  simp only [Option.some_bind]
  rw [readString_strBE _ hid]
  simp only [Option.some_bind]
  rw [readScheme_wire]
  simp [ACL.canon]

theorem readACLs_append (l : List ACL) (h : ∀ a ∈ l, a.wireOk)
    (r : List Nat) :
    readACLs l.length (l.foldr (fun a acc => aclBE a ++ acc) [] ++ r) =
      some (l.map ACL.canon, r) := by
  induction l with
  | nil => simp [readACLs]
  | cons a l ih =>
    simp only [List.foldr_cons, List.length_cons, List.append_assoc]
    simp only [readACLs, Option.bind_eq_bind]
    rw [readACL_aclBE a (h a (by simp))]
    simp only [Option.some_bind]
    rw [ih (fun x hx => h x (by simp [hx]))]
    simp [List.map_cons]

theorem readCreateRequest_bytes (path : List Nat) (data : Option (List Nat))
    (acl : List ACL) (flags : Int)
    (hpath : path.length < 2147483648)
    (hdata : ∀ d, data = some d → d.length < 2147483648)
    (hacl : acl.length < 2147483648)
    (hok : ∀ a ∈ acl, a.wireOk)
    (hflags1 : -2147483648 ≤ flags) (hflags2 : flags < 2147483648) :
    readCreateRequest
        (strBE path ++ sliceOptBE data ++ vecBE acl ++ i32BE flags) =
      some (path, data, acl.map ACL.canon, flags) := by
  have hcount : readI32 (i32BE ((acl.length : Int)) ++
      (acl.foldr (fun a acc => aclBE a ++ acc) [] ++ i32BE flags)) =
      some ((acl.length : Int),
        acl.foldr (fun a acc => aclBE a ++ acc) [] ++ i32BE flags) :=
    readI32_i32BE _ (by omega) (by omega) _
  have hflags : readI32 (i32BE flags) = some (flags, []) := by
    have := readI32_i32BE flags hflags1 hflags2 []
    rwa [List.append_nil] at this
  simp only [vecBE, List.append_assoc]
  simp only [readCreateRequest, Option.bind_eq_bind]
  rw [readString_strBE _ hpath]
  simp only [Option.some_bind]
  cases data with
  | none =>
    rw [readSliceOption_none]
    simp only [Option.some_bind]
    rw [hcount]
    simp only [Option.some_bind]
    rw [if_pos (by omega), Int.toNat_natCast,
      readACLs_append acl hok (i32BE flags)]
    simp only [Option.some_bind]
    rw [hflags]
    simp
  | some d =>
    rw [readSliceOption_some d (hdata d rfl)]
    simp only [Option.some_bind]
    rw [hcount]
    simp only [Option.some_bind]
    rw [if_pos (by omega), Int.toNat_natCast,
      readACLs_append acl hok (i32BE flags)]
    simp only [Option.some_bind]
    rw [hflags]
    simp

/-- C1: `CreateRequest::write` emits exactly, in order: the length-prefixed
path string, the optional-bytes encoding of `data`, the count-prefixed ACL
sequence, and then the create flags as a big-endian `i32` — the
flags/create-mode field is part of the wire output. -/
theorem createRequest_write_wire_shape (r : CreateRequest) (b : List Nat) :
    CreateRequest.write r b =
      Except.ok (b ++ (strBE r.path ++ sliceOptBE r.data ++ vecBE r.acl ++
        i32BE r.flags)) := by
  simp [createRequestWrite_eq, List.append_assoc]

/-- C2: for every `ACL` with `Scheme::World`, `ACL::write` appends exactly
the perms as big-endian `u32`, the length-prefixed `"world"`, then the
length-prefixed `"anyone"`; the output does not depend on the `id` field. -/
theorem acl_write_world (perms : Nat) (id b : List Nat) :
    ACL.write { perms := perms, scheme := Scheme.World, id := id } b =
      Except.ok (b ++ u32BE perms ++ strBE WORLD ++ strBE ANYONE) := by
  simp [aclWrite_eq, aclBE, Scheme.wireName, Scheme.wireId,
    List.append_assoc]

/-- C3: `ConnectRequest::new(10000)` serialized into an empty buffer yields
exactly 29 bytes: `i32` 0, `i64` 0, `u32` 10000, `i64` 0, the 4-byte `-1`
password sentinel with no password bytes, and one `0x00` byte for
`read_only = false`. -/
theorem connectRequest_new_10000_bytes :
    ConnectRequest.write (ConnectRequest.new 10000) [] =
      Except.ok (i32BE 0 ++ i64BE 0 ++ u32BE 10000 ++ i64BE 0 ++
        i32BE (-1) ++ [0]) ∧
    i32BE (-1) = [255, 255, 255, 255] ∧
    (i32BE 0 ++ i64BE 0 ++ u32BE 10000 ++ i64BE 0 ++ i32BE (-1) ++
      [0]).length = 29 := by
  refine ⟨rfl, by decide, by decide⟩

/-- C4: the death sentinel `ReqPacket::death_request()` has packet type
`DEATH_PTYPE = -1`, and both its header and payload are `None`. -/
theorem death_request_sentinel :
    ReqPacket.death_request.ptype = DEATH_PTYPE ∧ DEATH_PTYPE = -1 ∧
      ReqPacket.death_request.rh = none ∧
      ReqPacket.death_request.req = none :=
  ⟨rfl, rfl, rfl, rfl⟩

/-- C5: `write_slice_option` encodes `Some d` as `len(d)` as big-endian
`i32` followed by `d`, encodes `None` as exactly the 4 bytes of `i32` `-1`
and nothing else, and the two encodings differ for every `d`, the empty
sequence included. -/
theorem write_slice_option_spec (d b : List Nat) :
    write_slice_option (some d) b = b ++ i32BE ((d.length : Int)) ++ d ∧
    write_slice_option none b = b ++ i32BE (-1) ∧
    (i32BE (-1)).length = 4 ∧
    sliceOptBE (some d) ≠ sliceOptBE none := by
  refine ⟨by simp [write_slice_option, sliceOptBE, List.append_assoc],
    rfl, by decide, ?_⟩
  cases d with
  | nil => decide
  | cons x xs =>
    intro h
    have hlen := congrArg List.length h
    simp [sliceOptBE, i32BE, u32BE] at hlen

/-- C6: `SetDataRequest::new("/a", b"hello", 3)` serialized into an empty
buffer yields exactly the length-prefixed `"/a"`, then `i32` 5 followed by
the five bytes of `"hello"`, then `i32` 3. -/
theorem setDataRequest_scenario :
    SetDataRequest.write
        (SetDataRequest.new [47, 97] [104, 101, 108, 108, 111] 3) [] =
      Except.ok ([0, 0, 0, 2] ++ [47, 97] ++ [0, 0, 0, 5] ++
        [104, 101, 108, 108, 111] ++ [0, 0, 0, 3]) :=
  rfl

/-- C7 (amended): for every path, optional data, ACL list and create mode
whose lengths fit the signed 32-bit length prefixes, a decoder built against
the same wire format recovers the path, the data, the create mode
(`flags = mode.toFlags` and `ofFlags` maps it back), and each ACL's perms
and scheme unchanged; the never-serialized `id` field comes back as the
canonical wire identity (`ACL.canon`), not necessarily the original. -/
theorem createRequest_new_full_roundtrip (path : List Nat)
    (data : Option (List Nat)) (acl : List ACL) (mode : CreateMode)
    (hpath : path.length < 2147483648)
    (hdata : ∀ d, data = some d → d.length < 2147483648)
    (hacl : acl.length < 2147483648)
    (hok : ∀ a ∈ acl, a.wireOk)
    (enc : List Nat)
    (henc : CreateRequest.write (CreateRequest.new_full path data acl mode) []
      = Except.ok enc) :
    readCreateRequest enc =
      some (path, data, acl.map ACL.canon, mode.toFlags) ∧
    CreateMode.ofFlags mode.toFlags = some mode := by
  have hbytes : CreateRequest.write (CreateRequest.new_full path data acl mode)
      [] = Except.ok
        (strBE path ++ sliceOptBE data ++ vecBE acl ++ i32BE mode.toFlags) := by
    rw [createRequestWrite_eq]
    simp [CreateRequest.new_full]
  rw [hbytes] at henc
  have henc' : strBE path ++ sliceOptBE data ++ vecBE acl ++
      i32BE mode.toFlags = enc := Except.ok.inj henc
  subst henc'
  refine ⟨readCreateRequest_bytes path data acl mode.toFlags hpath hdata hacl
    hok ?_ ?_, ?_⟩
  · cases mode <;> decide
  · cases mode <;> decide
  · cases mode <;> rfl

/-- C7 counterexample: the claim as stated is false — `ACL::write` never
emits the `id` field, so two `CreateRequest`s whose ACL lists differ only in
`id` produce identical wire output, and no decoder can recover both ACL
lists unchanged. -/
theorem createRequest_roundtrip_id_collision :
    CreateRequest.write (CreateRequest.new_full [47] none
        [{ perms := 31, scheme := Scheme.World, id := [120] }]
        CreateMode.Persistent) [] =
      CreateRequest.write (CreateRequest.new_full [47] none
        [{ perms := 31, scheme := Scheme.World, id := ANYONE }]
        CreateMode.Persistent) [] ∧
    [({ perms := 31, scheme := Scheme.World, id := [120] } : ACL)] ≠
      [{ perms := 31, scheme := Scheme.World, id := ANYONE }] :=
  ⟨rfl, by decide⟩

/-- Witness for the amended C7 round-trip at a concrete input: the default
world-ACL create request for path `"/"`. -/
theorem createRequest_new_full_roundtrip_witness :
    readCreateRequest
        [0, 0, 0, 1, 47, 255, 255, 255, 255, 0, 0, 0, 1, 0, 0, 0, 31,
         0, 0, 0, 5, 119, 111, 114, 108, 100, 0, 0, 0, 6, 97, 110, 121,
         111, 110, 101, 0, 0, 0, 0] =
      some ([47], none, [ACL.default].map ACL.canon,
        CreateMode.Persistent.toFlags) ∧
    CreateMode.ofFlags CreateMode.Persistent.toFlags =
      some CreateMode.Persistent :=
  createRequest_new_full_roundtrip [47] none [ACL.default]
    CreateMode.Persistent (by decide) (fun d h => nomatch h) (by decide)
    (by decide)
    [0, 0, 0, 1, 47, 255, 255, 255, 255, 0, 0, 0, 1, 0, 0, 0, 31,
     0, 0, 0, 5, 119, 111, 114, 108, 100, 0, 0, 0, 6, 97, 110, 121,
     111, 110, 101, 0, 0, 0, 0] rfl

/-- C8: encoding is total — every write operation of every payload type
returns `Ok` on every value and every buffer; no input reaches an error
result. -/
theorem write_is_total (h : RequestHeader) (c : ConnectRequest) (a : ACL)
    (r : CreateRequest) (dr : DeleteRequest) (sr : SetDataRequest)
    (pw : PathAndWatchRequest) (p : PathRequest) (b : List Nat) :
    (∃ o, RequestHeader.write h b = Except.ok o) ∧
    (∃ o, ConnectRequest.write c b = Except.ok o) ∧
    (∃ o, ACL.write a b = Except.ok o) ∧
    (∃ o, CreateRequest.write r b = Except.ok o) ∧
    (∃ o, DeleteRequest.write dr b = Except.ok o) ∧
    (∃ o, SetDataRequest.write sr b = Except.ok o) ∧
    (∃ o, PathAndWatchRequest.write pw b = Except.ok o) ∧
    (∃ o, PathRequest.write p b = Except.ok o) :=
  ⟨⟨_, rfl⟩, ⟨_, rfl⟩, ⟨_, aclWrite_eq a b⟩, ⟨_, createRequestWrite_eq r b⟩,
    ⟨_, rfl⟩, ⟨_, rfl⟩, ⟨_, rfl⟩, ⟨_, rfl⟩⟩

/-- C9: writes only append — for every payload value and buffer `b`, writing
into `b` yields `b` followed by exactly the bytes the same value writes into
an empty buffer; the appended suffix does not depend on the prior
contents. -/
theorem write_only_appends (h : RequestHeader) (c : ConnectRequest) (a : ACL)
    (r : CreateRequest) (dr : DeleteRequest) (sr : SetDataRequest)
    (pw : PathAndWatchRequest) (p : PathRequest) (b : List Nat) :
    RequestHeader.write h b =
      (RequestHeader.write h []).map (fun s => b ++ s) ∧
    ConnectRequest.write c b =
      (ConnectRequest.write c []).map (fun s => b ++ s) ∧
    ACL.write a b = (ACL.write a []).map (fun s => b ++ s) ∧
    CreateRequest.write r b =
      (CreateRequest.write r []).map (fun s => b ++ s) ∧
    DeleteRequest.write dr b =
      (DeleteRequest.write dr []).map (fun s => b ++ s) ∧
    SetDataRequest.write sr b =
      (SetDataRequest.write sr []).map (fun s => b ++ s) ∧
    PathAndWatchRequest.write pw b =
      (PathAndWatchRequest.write pw []).map (fun s => b ++ s) ∧
    PathRequest.write p b = (PathRequest.write p []).map (fun s => b ++ s) := by
  refine ⟨?_, ?_, ?_, ?_, ?_, ?_, ?_, ?_⟩ <;>
    simp [RequestHeader.write, ConnectRequest.write, aclWrite_eq,
      createRequestWrite_eq, DeleteRequest.write, SetDataRequest.write,
      PathAndWatchRequest.write, PathRequest.write, write_i32, write_i64,
      write_u32, write_bool, write_string, write_slice, write_slice_option,
      Except.map, List.append_assoc]

/-- C10: the ordinary constructor `ReqPacket::new` always produces packet
type 0, which differs from `DEATH_PTYPE = -1`; the death sentinel cannot be
produced by `ReqPacket::new`. -/
theorem reqPacket_new_not_death (rh : Option RequestHeader)
    (req : Option (List Nat)) :
    (ReqPacket.new rh req).ptype = 0 ∧
      (ReqPacket.new rh req).ptype ≠ DEATH_PTYPE := by
  refine ⟨rfl, ?_⟩
  show (0 : Int) ≠ DEATH_PTYPE
  decide

end Buruma
